import Mathlib

/-!
Verification of the PowerPointKaraoke prefetch/cache pipeline and
language-consistency coordinator.

The definitions below are shallow embeddings of the TypeScript sources:
* `src/utils/languageDetection.ts` — `isDutchText`, `detectPresentationLanguage`,
  `getSlidesToAnalyze`;
* `src/components/ExportVideo.tsx` — `retryWithBackoff`, `generateAudioForScript`,
  the per-slide export loop of `handleExport`, its language-resolution logic and
  `handleCancel`;
* `src/components/SlideViewer.tsx` (the ScriptDisplay component it contains) —
  the `prefetchUpcomingSlides` effect and its in-flight export checks;
* `src/components/AudioControls.tsx` — the synthesizer used by `generateAudio`.

JavaScript-specific behaviour is modelled explicitly: `String.prototype.split(/\s+/)`
(including the empty boundary tokens it yields for leading/trailing whitespace),
truthiness of strings (`""` is falsy), and the float threshold `words.length * 0.2`
(the IEEE-double comparison `count >= len * 0.2` coincides with the exact rational
comparison for every length a JS string can have, since `len * fl(0.2)` never rounds
across `len / 5`; the embedding therefore uses exact rational arithmetic).
-/
namespace PPTKaraoke

/-- The two language values of `PresentationLanguage` ('dutch' | 'english'). -/
inductive Lang where
  | dutch
  | english
deriving DecidableEq, Repr

/-- Code points matched by the JavaScript regex class `\s`
(whitespace, line terminators, NBSP, Unicode space separators, BOM). -/
def jsWhitespaceCodes : List Nat :=
  [9, 10, 11, 12, 13, 32, 0xA0, 0x1680, 0x2028, 0x2029, 0x202F, 0x205F, 0x3000, 0xFEFF]

/-- Whether a character is JavaScript `\s` whitespace. -/
def isWS (c : Char) : Bool :=
  decide (c.toNat ∈ jsWhitespaceCodes) || (decide (0x2000 ≤ c.toNat) && decide (c.toNat ≤ 0x200A))

/-- One pass of `text.split(/\s+/)`: `splitRun rest skipping cur` processes the
remaining characters; `skipping` is true while inside a whitespace run that has
already terminated a token; `cur` holds the current token reversed.
JS semantics: a leading whitespace run yields an empty first element, a trailing
run yields an empty last element, and `"".split(/\s+/)` is `[""]`. -/
def splitRun : List Char → Bool → List Char → List (List Char)
  | [], false, cur => [cur.reverse]
  | [], true, _ => [[]]
  | c :: rest, false, cur =>
    if isWS c then cur.reverse :: splitRun rest true [] else splitRun rest false (c :: cur)
  | c :: rest, true, _ =>
    if isWS c then splitRun rest true [] else splitRun rest false [c]

/-- Model of `s.split(/\s+/)` on a character list. -/
def splitWS (s : List Char) : List (List Char) := splitRun s false []

/-- The character class of `word.replace(/[.,!?;:]$/, '')`. -/
def trailingPunctChars : List Char := ['.', ',', '!', '?', ';', ':']

/-- Model of `word.replace(/[.,!?;:]$/, '')`: drop one trailing punctuation character. -/
def stripTrailingPunct (w : List Char) : List Char :=
  match w.reverse with
  | [] => w
  | c :: rest => if trailingPunctChars.contains c then rest.reverse else w

/-- The fixed closed-class Dutch word list of `languageDetection.ts` (lines 6-13). -/
def dutchWords : List String :=
  ["de", "het", "een", "van", "in", "op", "voor", "met", "aan", "dat", "dit",
   "zijn", "worden", "hebben", "kunnen", "moeten", "willen", "gaan", "maken",
   "deze", "zoals", "maar", "ook", "niet", "naar", "door", "over", "om",
   "bij", "uit", "meer", "andere", "alle", "veel", "nog", "wel",
   "bijvoorbeeld", "namelijk", "waarom", "hoe", "wanneer", "waar", "wie",
   "wordt", "werd", "waren", "was", "bent", "had", "hadden"]

/-- Model of `text.toLowerCase().split(/\s+/)`.  `Char.toLower` performs the ASCII case
mapping; case mapping never changes token boundaries or membership in the
all-lowercase-ASCII word list, so this is faithful to `String.prototype.toLowerCase`
for the classifier's purposes. -/
def tokensOf (text : String) : List (List Char) :=
  splitWS (text.data.map Char.toLower)

/-- Embedding of `isDutchText` (`languageDetection.ts` lines 18-26): count tokens whose
punctuation-stripped form is in the Dutch word list and compare against the
threshold `words.length * 0.2` and the absolute floor 3.  The float comparison
`dutchWordCount >= words.length * 0.2` is modelled by the exact comparison
`words.length ≤ 5 * dutchWordCount`: for every `len` a JS string can have,
the double `len * fl(0.2)` never rounds across `len / 5`, so the two
comparisons agree on all integers. -/
def isDutchText (text : String) : Bool :=
  let words := tokensOf text
  let dutchWordCount :=
    (words.filter (fun w => dutchWords.contains (stripTrailingPunct w).asString)).length
  decide (words.length ≤ 5 * dutchWordCount) && decide (3 ≤ dutchWordCount)

/-- JS falsiness of `script.trim()`: the string contains only `\s` whitespace. -/
def jsBlank (s : String) : Bool := s.data.all (fun c => isWS c)

/-- The guard `!script || !script.trim()` that skips a sample. -/
def skippedSample (s : String) : Bool := s == "" || jsBlank s

/-- Embedding of `detectPresentationLanguage` (`languageDetection.ts` lines 35-70): empty input
defaults to Dutch; otherwise count Dutch/English classifications over the
non-skipped samples and return Dutch iff `dutchCount > englishCount`. -/
def detectPresentationLanguage (scripts : List String) : Lang :=
  if scripts = [] then Lang.dutch
  else
    let counts := scripts.foldl
      (fun (acc : Nat × Nat) script =>
        if skippedSample script then acc
        else if isDutchText script then (acc.1 + 1, acc.2) else (acc.1, acc.2 + 1))
      (0, 0)
    if counts.1 > counts.2 then Lang.dutch else Lang.english

/-- Embedding of `getSlidesToAnalyze` (`languageDetection.ts` lines 76-78). -/
def getSlidesToAnalyze (totalSlides : Nat) : Nat := min totalSlides 3

/-- Spec-side reading of the classifier: number of tokens whose
punctuation-stripped form belongs to the Dutch word list. -/
def matchedTokenCount (text : String) : Nat :=
  ((tokensOf text).filter (fun w => dutchWords.contains (stripTrailingPunct w).asString)).length

/-- Spec-side reading of the classifier: total token count of the split. -/
def tokenCount (text : String) : Nat := (tokensOf text).length

/-- A sample is classified (not skipped) iff it survives the
`!script || !script.trim()` guard. -/
def classifiedSample (s : String) : Bool := !skippedSample s

/-! Embedding of `retryWithBackoff` (ExportVideo.tsx lines 48-68).

`fn attempt` is the outcome of the wrapped async thunk's `attempt`-th invocation
(0-based).  The embedding returns the overall result, the number of invocations
of the thunk, and the backoff delays slept, in order.  The fuel argument of the
helper equals `maxRetries - attempt`, mirroring the `for` loop bound. -/
/-- The loop of `retryWithBackoff`: try `fn`, rethrow on the last attempt,
otherwise sleep `baseDelay * 2 ^ attempt` and continue. -/
def retryAux {α : Type} (fn : Nat → Except String α) (maxRetries baseDelay : Nat) :
    Nat → Nat → List Nat → Except String α × Nat × List Nat
  | 0, attempt, delays => (Except.error "Max retries exceeded", attempt, delays.reverse)
  | fuel + 1, attempt, delays =>
    match fn attempt with
    | Except.ok v => (Except.ok v, attempt + 1, delays.reverse)
    | Except.error e =>
      if attempt = maxRetries - 1 then (Except.error e, attempt + 1, delays.reverse)
      else retryAux fn maxRetries baseDelay fuel (attempt + 1) (baseDelay * 2 ^ attempt :: delays)

/-- Embedding of `retryWithBackoff(fn, maxRetries, baseDelay)`; call sites use the defaults
`maxRetries = 5`, `baseDelay = 2000`. -/
def retryWithBackoff {α : Type} (fn : Nat → Except String α) (maxRetries baseDelay : Nat) :
    Except String α × Nat × List Nat :=
  retryAux fn maxRetries baseDelay maxRetries 0 []

/-- A thunk that fails on its first four invocations, then succeeds. -/
def flakyThunk : Nat → Except String Nat :=
  fun k => if k < 4 then Except.error "boom" else Except.ok 42

/-- A thunk that always fails. -/
def brokenThunk : Nat → Except String Nat := fun _ => Except.error "boom"

/-! Embedding of `generateAudioForScript` (ExportVideo.tsx lines 269-324).

The audio-synthesis thunk passed to `retryWithBackoff`. `ApiConfig` holds the
`getKey` results (`getKey` returns `''` for an absent key, and JS `!key` is the
`= ""` test).  `SynthNet` gives the transport outcome of each provider call as a
function of the script and the attempt index. -/
/-- The credential values read via `getKey`. -/
structure ApiConfig where
  elevenlabsApiKey : String
  elevenlabsDutchVoiceId : String
  deepgramApiKey : String

/-- Transport outcomes of the two speech-synthesis services. -/
structure SynthNet where
  elevenlabs : String → Nat → Except String String
  deepgram : String → Nat → Except String String

/-- One attempt of the thunk inside `generateAudioForScript`: dispatch on
`exportLanguage`, throw a configuration error if the mapped provider's
credentials are absent, otherwise perform the provider call. -/
def generateAudioAttempt (cfg : ApiConfig) (net : SynthNet) (script : String)
    (exportLanguage : Lang) (attempt : Nat) : Except String String :=
  if exportLanguage = Lang.dutch then
    if cfg.elevenlabsApiKey = "" ∨ cfg.elevenlabsDutchVoiceId = "" then
      Except.error "ElevenLabs not configured for Dutch audio"
    else net.elevenlabs script attempt
  else
    if cfg.deepgramApiKey = "" ∨ cfg.deepgramApiKey = "your_deepgram_api_key_here" then
      Except.error "Deepgram not configured for English audio"
    else net.deepgram script attempt

/-- Embedding of `generateAudioForScript(script, exportLanguage)`: the thunk above wrapped in
`retryWithBackoff` with the default policy. -/
def generateAudioForScript (cfg : ApiConfig) (net : SynthNet) (script : String)
    (exportLanguage : Lang) : Except String String × Nat × List Nat :=
  retryWithBackoff (generateAudioAttempt cfg net script exportLanguage) 5 2000

/-- A configuration with no ElevenLabs credentials and a valid Deepgram key. -/
def noElevenLabsCfg : ApiConfig :=
  { elevenlabsApiKey := "", elevenlabsDutchVoiceId := "", deepgramApiKey := "dg-key" }

/-- A network on which every provider call would succeed. -/
def idleNet : SynthNet :=
  { elevenlabs := fun _ _ => Except.ok "audio", deepgram := fun _ _ => Except.ok "audio" }

/-! The per-slide export loop of `handleExport` (ExportVideo.tsx lines 446-539)

`ok p` states whether slide `p`'s processing succeeds (reaching
`slideData.push`); on failure the slide index goes to `failedSlides` and the
loop continues.  `img`, `aud`, `dur` give the (image, audio, duration) values a
successful slide contributes.  The result is the processing-order trace, the
`slideData` list, and the `failedSlides` list. -/
/-- The slide loop over an explicit page list (the `for` loop processes the
head, then the remaining pages). -/
def handleExportSlides (ok : Nat → Bool) (img aud : Nat → String) (dur : Nat → Nat) :
    List Nat → List Nat × List (String × String × Nat) × List Nat
  | [] => ([], [], [])
  | p :: rest =>
    let r := handleExportSlides ok img aud dur rest
    if ok p then (p :: r.1, (img p, aud p, dur p) :: r.2.1, r.2.2)
    else (p :: r.1, r.2.1, p :: r.2.2)

/-- Embedding of the loop `for (let pageNum = 1; pageNum <= totalPages; pageNum++)`. -/
def handleExportLoop (totalPages : Nat) (ok : Nat → Bool) (img aud : Nat → String)
    (dur : Nat → Nat) : List Nat × List (String × String × Nat) × List Nat :=
  handleExportSlides ok img aud dur (List.range' 1 totalPages)

/-- Model of `if (slideData.length === 0) throw new Error('No slides could be processed')`:
the list handed to the muxer, when the export reaches it. -/
def exportPackagerInput (totalPages : Nat) (ok : Nat → Bool) (img aud : Nat → String)
    (dur : Nat → Nat) : Option (List (String × String × Nat)) :=
  let r := handleExportLoop totalPages ok img aud dur
  if r.2.1.length = 0 then none else some r.2.1

/-- Success oracle that fails exactly slide 2. -/
def failSlide2 : Nat → Bool := fun p => decide (p ≠ 2)

/-- Success oracle on which every slide succeeds. -/
def allSlidesOk : Nat → Bool := fun _ => true

/-- Constant slide image. -/
def constImg : Nat → String := fun _ => "img"

/-- Constant slide audio. -/
def constAud : Nat → String := fun _ => "aud"

/-- Duration equal to the slide index. -/
def idDur : Nat → Nat := fun p => p

/-! Export cancellation (`handleCancel`, ExportVideo.tsx lines 381-385)

`handleCancel` only mutates UI state (`setIsExporting(false)`, clears progress
and current slide).  The slide loop of `handleExport` has the sole guard
`pageNum <= totalPages`; no statement inside the loop reads `isExporting` or any
other cancellation signal, so a cancel request never stops the loop. -/
/-- The UI state touched by `handleCancel`. -/
structure ExportUIState where
  isExporting : Bool
  progress : String
  currentSlide : Nat

/-- Embedding of `handleCancel`: reset the three UI fields; nothing else. -/
def handleCancel (_st : ExportUIState) : ExportUIState :=
  { isExporting := false, progress := "", currentSlide := 0 }

/-- The pages processed by the export loop in the presence of a cancel request:
`cancelRequestedBefore p` records whether Cancel was clicked before slide `p`'s
processing began.  The loop of the source never consults it (there is no
cancellation check in `handleExport`), which is why the parameter does not
influence the trace. -/
def exportProcessedPages (totalPages : Nat) (cancelRequestedBefore : Nat → Bool)
    (ok : Nat → Bool) (img aud : Nat → String) (dur : Nat → Nat) : List Nat :=
  (handleExportLoop totalPages ok img aud dur).1

/-! Language resolution inside `handleExport` (ExportVideo.tsx lines 414-480)

`handleExport` resolves the presentation language in two places: before the
loop, from the cached scripts of the first `min(totalPages, 3)` slides, and
inside the loop at slide 1, from the freshly generated script, guarded by
`if (!presentationLanguage && pageNum === 1)`.  `presentationLanguage` is the
component prop captured when `handleExport` was invoked; `setPresentationLanguage`
does not change that local binding, so the in-loop guard still sees the captured
value even after the pre-loop path has already resolved the language. -/
/-- JS truthiness of a cache lookup (`undefined` and `''` are falsy). -/
def jsTruthy (o : Option String) : Bool :=
  match o with
  | none => false
  | some s => decide (s ≠ "")

/-- Model of `for (let i = 1; i <= slidesToCheck; i++) if (scriptCache[i]) push(...)`. -/
def cacheTruthyValues (scriptCache : Nat → Option String) (upTo : Nat) : List String :=
  (List.range' 1 upTo).filterMap fun i =>
    match scriptCache i with
    | some s => if s = "" then none else some s
    | none => none

/-- The language-resolution behaviour of `handleExport`: returns the final value
of the local `exportLanguage` and the list of arguments passed to
`setPresentationLanguage`, in call order.  `gen1` is the script generated for
slide 1 when slide 1 has no cache entry (that path is reached when slide 1's
content and script calls succeed). -/
def handleExportLanguage (presentationLanguage : Option Lang)
    (scriptCache : Nat → Option String) (totalPages : Nat) (gen1 : String) :
    Lang × List Lang :=
  let exportLanguage0 := presentationLanguage.getD Lang.dutch
  let slidesToCheck := min (getSlidesToAnalyze totalPages) totalPages
  let scriptsToAnalyze := cacheTruthyValues scriptCache slidesToCheck
  let step1 :=
    if presentationLanguage = none then
      if scriptsToAnalyze.length > 0 then
        let d := detectPresentationLanguage scriptsToAnalyze
        (d, [d])
      else (exportLanguage0, ([] : List Lang))
    else (exportLanguage0, ([] : List Lang))
  if presentationLanguage = none ∧ jsTruthy (scriptCache 1) = false then
    let d := detectPresentationLanguage [gen1]
    (d, step1.2 ++ [d])
  else step1

/-- A script cache holding an (English) script only for slide 2. -/
def slide2OnlyCache : Nat → Option String :=
  fun i => if i = 2 then some "this is a test of the system" else none

/-- A Dutch script generated for slide 1 during the export. -/
def dutchSlide1Script : String := "de het een van belang"

/-! Audio Synthesizer Dispatch

Three call sites synthesize speech:
* export: `generateAudioForScript` (ExportVideo.tsx 269-324) branches on
  `exportLanguage === 'dutch'` between the ElevenLabs Dutch voice and the
  Deepgram English voice;
* prefetch: `prefetchUpcomingSlides` (SlideViewer.tsx 848-919) branches on
  `presentationLanguage === 'dutch' || (presentationLanguage === null && <inline
  detection>)`, where the inline detector carries its own (shorter) word list;
* interactive playback: `generateAudio` (AudioControls.tsx 42-98) contains a
  single fetch to the Deepgram `aura-2-hermes-en` English voice; the component
  receives no language prop and consults no language value. -/
/-- The two concrete synthesizer targets. -/
inductive Synth where
  | elevenlabsDutch
  | deepgramEnglish
deriving DecidableEq, Repr

/-- The spec's fixed language-to-synthesizer mapping: Dutch to the ElevenLabs
Dutch voice, English to the Deepgram English voice. -/
def synthFor : Lang → Synth
  | Lang.dutch => Synth.elevenlabsDutch
  | Lang.english => Synth.deepgramEnglish

/-- The synthesizer selected by `generateAudioForScript`
(`const isDutch = exportLanguage === 'dutch'`). -/
def exportAudioSynth (exportLanguage : Lang) : Synth :=
  if exportLanguage = Lang.dutch then Synth.elevenlabsDutch else Synth.deepgramEnglish

/-- The word list of the inline detector in `prefetchUpcomingSlides`
(SlideViewer.tsx lines 852-858; note the duplicated 'naar' and the absence of
the conjugation entries of the utils list). -/
def prefetchDutchWords : List String :=
  ["de", "het", "een", "van", "in", "op", "voor", "met", "aan", "dat", "dit",
   "zijn", "worden", "hebben", "kunnen", "moeten", "willen", "gaan", "maken",
   "deze", "zoals", "maar", "ook", "niet", "naar", "door", "over", "om",
   "bij", "uit", "naar", "meer", "andere", "alle", "veel", "nog", "wel",
   "bijvoorbeeld", "namelijk", "waarom", "hoe", "wanneer", "waar", "wie"]

/-- The inline Dutch detection of the prefetch audio step (same tokenization and
thresholds as `isDutchText`, but over `prefetchDutchWords`). -/
def prefetchInlineIsDutch (text : String) : Bool :=
  let words := splitWS (text.data.map Char.toLower)
  let dutchWordCount :=
    (words.filter (fun w => prefetchDutchWords.contains (stripTrailingPunct w).asString)).length
  decide (words.length ≤ 5 * dutchWordCount) && decide (3 ≤ dutchWordCount)

/-- The prefetch audio step's `isDutch` value: the resolved language when set,
else the inline same-session detection of the just-generated script. -/
def prefetchIsDutch (presentationLanguage : Option Lang) (nextScript : String) : Bool :=
  presentationLanguage == some Lang.dutch ||
    (presentationLanguage == none && prefetchInlineIsDutch nextScript)

/-- The synthesizer selected by the prefetch audio step. -/
def prefetchAudioSynth (presentationLanguage : Option Lang) (nextScript : String) : Synth :=
  if prefetchIsDutch presentationLanguage nextScript then Synth.elevenlabsDutch
  else Synth.deepgramEnglish

/-- The synthesizer used by `generateAudio(text, pageNumber)` in AudioControls:
always the Deepgram English voice — the function has no language parameter and
the file contains no other synthesis endpoint. -/
def interactiveAudioSynth (text : String) (pageNumber : Nat) : Synth :=
  Synth.deepgramEnglish

/-! The Prefetch Pipeline (`prefetchUpcomingSlides`, SlideViewer.tsx 722-935)

The effect skips entirely when `isExporting` is set at effect time; otherwise,
for each of the next up to two slides without a cached script, the inner
`prefetchNextScript` runs content extraction, script generation and audio
synthesis, with an `if (isExporting)` discard check after each await and before
each cache write.

All of those checks read `isExporting`, the component prop captured when the
effect's render produced the closure.  A prop is an immutable `const` binding of
that render: when the export flag flips during an await, React re-renders with a
new prop value and re-runs the effect (which then skips), but the already
running closure keeps its captured value.  The embedding therefore threads two
values: `snap`, the captured prop the source actually tests, and `env`, the live
flag at each check point, which the translation of the source never reads. -/
/-- A single write emitted to one of the three caches. -/
inductive CacheWrite where
  | content (page : Nat) (value : String)
  | script (page : Nat) (value : String)
  | audio (page : Nat) (value : String)
deriving DecidableEq, Repr

/-- The live export-in-progress flag at each of the three discard-check points
of one slide's prefetch. -/
structure PrefetchEnv where
  exportLiveAtContentCheck : Bool
  exportLiveAtScriptCheck : Bool
  exportLiveAtAudioCheck : Bool

/-- Credential presence for the calls the prefetch may issue. -/
structure PrefetchConfig where
  openaiConfigured : Bool
  elevenlabsConfigured : Bool
  deepgramConfigured : Bool

/-- Network outcomes for one slide's prefetch: the extracted content, the
script response and its text (`data.choices[0]?.message?.content || ''`), and
the audio response with its object URL. -/
structure PrefetchFetchResult where
  extractedContent : String
  scriptResponseOk : Bool
  scriptText : String
  audioResponseOk : Bool
  audioUrl : String

/-- The three caches as read by the effect's closure (also per-render
snapshots: a `setX` call during the run does not change them). -/
structure Caches where
  contentCache : Nat → Option String
  scriptCache : Nat → Option String
  audioCache : Nat → Option String

/-- Model of `s.includes('[Error')`. -/
def includesErrorMarker (s : String) : Bool := go s.data
where
  go : List Char → Bool
    | [] => false
    | c :: rest => "[Error".data.isPrefixOf (c :: rest) || go rest

/-- Writes performed by one iteration of the prefetch loop (the inner
`prefetchNextScript`, SlideViewer.tsx lines 742-928) for `nextPage`.  Every
`if (isExporting)` discard check tests `snap`; `env` records the live flag at
those moments and is never consulted, faithfully to the closure semantics
described above. -/
def prefetchNextScript (snap : Bool) (env : PrefetchEnv) (cfg : PrefetchConfig)
    (presentationLanguage : Option Lang) (caches : Caches)
    (fx : PrefetchFetchResult) (nextPage : Nat) : List CacheWrite :=
  let hitTruthy := jsTruthy (caches.contentCache nextPage)
  let nextContent :=
    if hitTruthy then (caches.contentCache nextPage).getD "" else fx.extractedContent
  if !hitTruthy && snap then []
  else
    let writes0 : List CacheWrite :=
      if hitTruthy then [] else [CacheWrite.content nextPage nextContent]
    if nextContent = "" || includesErrorMarker nextContent then writes0
    else if !cfg.openaiConfigured then writes0
    else if !fx.scriptResponseOk then writes0
    else
      let nextScript := fx.scriptText
      if snap then writes0
      else
        let writes1 := writes0 ++ [CacheWrite.script nextPage nextScript]
        if !jsTruthy (caches.audioCache nextPage) && nextScript ≠ "" then
          let isDutch := prefetchIsDutch presentationLanguage nextScript
          let gotResponse :=
            if isDutch then cfg.elevenlabsConfigured else cfg.deepgramConfigured
          if gotResponse && fx.audioResponseOk then
            if snap then writes1
            else writes1 ++ [CacheWrite.audio nextPage fx.audioUrl]
          else writes1
        else writes1

/-- The whole effect (lines 722-935): skip when exporting at effect time or when
there is no generated script, no document, or no further slide; otherwise run
`prefetchNextScript` for `currentPage + 1` and `currentPage + 2` (bounded by the
page count), skipping slides whose script is already cached. -/
def prefetchUpcomingSlides (snap : Bool) (env : PrefetchEnv) (cfg : PrefetchConfig)
    (presentationLanguage : Option Lang) (caches : Caches) (generatedScript : String)
    (pdfLoaded : Bool) (currentPage totalPages : Nat)
    (fx : Nat → PrefetchFetchResult) : List CacheWrite :=
  if snap then []
  else if generatedScript = "" || !pdfLoaded || decide (currentPage ≥ totalPages) then []
  else
    let slidesToPrefetch :=
      [currentPage + 1, currentPage + 2].filter (fun page => decide (page ≤ totalPages))
    slidesToPrefetch.foldl
      (fun acc nextPage =>
        if jsTruthy (caches.scriptCache nextPage) then acc
        else acc ++ prefetchNextScript snap env cfg presentationLanguage caches
          (fx nextPage) nextPage)
      []

/-- All three caches empty. -/
def emptyCaches : Caches :=
  { contentCache := fun _ => none, scriptCache := fun _ => none,
    audioCache := fun _ => none }

/-- All providers configured. -/
def fullCfg : PrefetchConfig :=
  { openaiConfigured := true, elevenlabsConfigured := true, deepgramConfigured := true }

/-- An export that starts while the prefetch awaits the script fetch: the live
flag is set at the script-write check and stays set. -/
def midExportEnv : PrefetchEnv :=
  { exportLiveAtContentCheck := false, exportLiveAtScriptCheck := true,
    exportLiveAtAudioCheck := true }

/-- Successful network outcomes for the prefetched slide. -/
def slide2Fetches : PrefetchFetchResult :=
  { extractedContent := "slide two content", scriptResponseOk := true,
    scriptText := "hello from slide two", audioResponseOk := true,
    audioUrl := "blob:audio-2" }

/-- ASCII case mapping fixes JS whitespace characters. -/
theorem toLower_eq_self_of_isWS (c : Char) (h : isWS c = true) : c.toLower = c := by
  have hn : c.toNat ∈ jsWhitespaceCodes ∨ (0x2000 ≤ c.toNat ∧ c.toNat ≤ 0x200A) := by
    simpa [isWS, Bool.or_eq_true, Bool.and_eq_true] using h
  have hguard : ¬(c.toNat ≥ 65 ∧ c.toNat ≤ 90) := by
    simp only [jsWhitespaceCodes, List.mem_cons, List.not_mem_nil, or_false] at hn
    omega
  simp only [Char.toLower, hguard, if_false, ite_eq_right_iff]

/-- Splitting an all-whitespace character list yields only empty tokens. -/
theorem splitRun_allWS (l : List Char) (h : ∀ c ∈ l, isWS c = true) :
    (∀ t ∈ splitRun l true [], t = ([] : List Char)) ∧
      ∀ cur : List Char, ∀ t ∈ splitRun l false cur, t = cur.reverse ∨ t = [] := by
  induction l with
  | nil =>
    constructor
    · intro t ht
      simpa [splitRun] using ht
    · intro cur t ht
      simp only [splitRun, List.mem_singleton] at ht
      exact Or.inl ht
  | cons c rest ih =>
    have hc : isWS c = true := h c (List.mem_cons_self c rest)
    have hrest : ∀ x ∈ rest, isWS x = true := fun x hx => h x (List.mem_cons_of_mem c hx)
    refine ⟨fun t ht => ?_, fun cur t ht => ?_⟩
    · rw [splitRun, if_pos hc] at ht
      exact (ih hrest).1 t ht
    · rw [splitRun, if_pos hc, List.mem_cons] at ht
      rcases ht with ht | ht
      · exact Or.inl ht
      · exact Or.inr ((ih hrest).1 t ht)

/-- On whitespace-only text, every token of the classifier's split is empty. -/
theorem tokensOf_allWS (text : String) (h : ∀ c ∈ text.data, isWS c = true) :
    ∀ t ∈ tokensOf text, t = ([] : List Char) := by
  intro t ht
  have hlow : ∀ c ∈ text.data.map Char.toLower, isWS c = true := by
    intro c hc
    rcases List.mem_map.mp hc with ⟨c0, hc0, rfl⟩
    rw [toLower_eq_self_of_isWS c0 (h c0 hc0)]
    exact h c0 hc0
  have := (splitRun_allWS _ hlow).2 []
  rcases this t ht with h1 | h1
  · simpa using h1
  · exact h1

/-- On whitespace-only text the matched-token count is zero. -/
theorem matchedTokenCount_allWS (text : String) (h : ∀ c ∈ text.data, isWS c = true) :
    matchedTokenCount text = 0 := by
  rw [matchedTokenCount, List.length_eq_zero, List.filter_eq_nil_iff]
  intro w hw
  rw [tokensOf_allWS text h w hw]
  decide

/-- The Boolean classifier result unfolded to the two counting conditions. -/
theorem isDutchText_eq_decide (text : String) :
    isDutchText text =
      (decide (tokenCount text ≤ 5 * matchedTokenCount text) &&
        decide (3 ≤ matchedTokenCount text)) := rfl

/-- C8: for every input text the classifier returns true iff the count of tokens
in the fixed Dutch word list (after lowercasing, whitespace splitting and
trailing-punctuation stripping) is at least 3 and at least 20% of the total
token count; every zero-length or whitespace-only text classifies false. -/
theorem classifySample_threshold_characterization (text : String) :
    (isDutchText text = true ↔
      3 ≤ matchedTokenCount text ∧
        (20 / 100 : ℚ) * (tokenCount text : ℚ) ≤ (matchedTokenCount text : ℚ))
    ∧ ((∀ c ∈ text.data, isWS c = true) → isDutchText text = false) := by
  constructor
  · rw [isDutchText_eq_decide]
    simp only [Bool.and_eq_true, decide_eq_true_eq]
    constructor
    · rintro ⟨h1, h2⟩
      refine ⟨h2, ?_⟩
      rw [show (20 / 100 : ℚ) = 1 / 5 by norm_num]
      rw [div_mul_eq_mul_div, mul_comm, ← div_mul_eq_mul_div, div_mul_eq_mul_div,
        div_le_iff₀ (by norm_num : (0:ℚ) < 5)]
      calc ((tokenCount text : ℚ) * 1) = (tokenCount text : ℚ) := by ring
        _ ≤ ((5 * matchedTokenCount text : ℕ) : ℚ) := by exact_mod_cast h1
        _ = (matchedTokenCount text : ℚ) * 5 := by push_cast; ring
    · rintro ⟨h2, h1⟩
      refine ⟨?_, h2⟩
      have h5 : (tokenCount text : ℚ) ≤ 5 * (matchedTokenCount text : ℚ) := by
        nlinarith
      exact_mod_cast h5
  · intro h
    rw [isDutchText_eq_decide]
    have h0 := matchedTokenCount_allWS text h
    rw [h0]
    simp

/-- Concrete instance of the whitespace-only clause of the C8 theorem. -/
theorem classifySample_threshold_characterization_witness :
    isDutchText "  \t " = false :=
  (classifySample_threshold_characterization "  \t ").2 (by decide)

/-- The counting fold of `detectPresentationLanguage`, characterized:
it counts, over the classified samples, how many classify Dutch and
how many classify English. -/
theorem detect_fold_counts (l : List String) (a b : Nat) :
    l.foldl
      (fun (acc : Nat × Nat) script =>
        if skippedSample script then acc
        else if isDutchText script then (acc.1 + 1, acc.2) else (acc.1, acc.2 + 1))
      (a, b) =
      (a + (l.filter classifiedSample).countP (fun s => isDutchText s),
        b + (l.filter classifiedSample).countP (fun s => !isDutchText s)) := by
  induction l generalizing a b with
  | nil => simp
  | cons s rest ih =>
    by_cases hs : skippedSample s = true
    · have hcl : classifiedSample s = false := by simp [classifiedSample, hs]
      simp only [List.foldl_cons, hs, if_true, List.filter_cons, hcl, Bool.false_eq_true,
        if_false]
      exact ih a b
    · have hs' : skippedSample s = false := by simpa using hs
      have hcl : classifiedSample s = true := by simp [classifiedSample, hs']
      by_cases hd : isDutchText s = true
      · simp only [List.foldl_cons, hs', Bool.false_eq_true, if_false, hd, if_true,
          List.filter_cons, hcl, List.countP_cons, hd, Bool.not_true]
        rw [ih (a + 1) b]
        simp only [Prod.mk.injEq]
        omega
      · have hd' : isDutchText s = false := by simpa using hd
        simp only [List.foldl_cons, hs', Bool.false_eq_true, if_false, hd', List.filter_cons,
          hcl, if_true, List.countP_cons, hd', Bool.not_false]
        rw [ih a (b + 1)]
        simp only [Prod.mk.injEq]
        omega

/-- C9: the resolver classifies each non-skipped sample independently and
returns Dutch iff the Dutch count strictly exceeds the English count
(so ties yield English); the empty list yields the fixed default Dutch. -/
theorem resolveLanguage_majority_characterization (scripts : List String) :
    detectPresentationLanguage scripts =
      if scripts = [] then Lang.dutch
      else
        if (scripts.filter classifiedSample).countP (fun s => isDutchText s) >
            (scripts.filter classifiedSample).countP (fun s => !isDutchText s) then
          Lang.dutch
        else Lang.english := by
  rw [detectPresentationLanguage]
  by_cases h : scripts = []
  · simp [h]
  · simp only [h, if_false]
    rw [detect_fold_counts scripts 0 0]
    simp

/-- C10: a non-empty sample list whose entries are all empty or whitespace-only
skips every sample and resolves to English via the tie rule, unlike the empty
list, which resolves to the fixed default Dutch. -/
theorem resolveLanguage_blank_list_vs_empty_list (scripts : List String) :
    (scripts ≠ [] → (∀ s ∈ scripts, skippedSample s = true) →
      detectPresentationLanguage scripts = Lang.english)
    ∧ detectPresentationLanguage [] = Lang.dutch ∧ Lang.english ≠ Lang.dutch := by
  refine ⟨fun hne hall => ?_, by decide, by decide⟩
  have hfilter : scripts.filter classifiedSample = [] := by
    rw [List.filter_eq_nil_iff]
    intro s hs
    simp [classifiedSample, hall s hs]
  rw [detectPresentationLanguage, if_neg hne, detect_fold_counts scripts 0 0, hfilter]
  simp

/-- Concrete instance of the C10 theorem on `["", "  "]`. -/
theorem resolveLanguage_blank_list_vs_empty_list_witness :
    detectPresentationLanguage ["", "  "] = Lang.english :=
  (resolveLanguage_blank_list_vs_empty_list ["", "  "]).1 (by decide) (by decide)

/-- Helper: four failures followed by a success return the success value after
exactly five invocations and the four doubling delays. -/
theorem retryWithBackoff_fail_four_then_ok {α : Type} (fn : Nat → Except String α)
    (es : Nat → String) (v : α) (hf : ∀ k, k < 4 → fn k = Except.error (es k))
    (h4 : fn 4 = Except.ok v) :
    retryWithBackoff fn 5 2000 = (Except.ok v, 5, [2000, 4000, 8000, 16000]) := by
  have h0 := hf 0 (by norm_num)
  have h1 := hf 1 (by norm_num)
  have h2 := hf 2 (by norm_num)
  have h3 := hf 3 (by norm_num)
  norm_num [retryWithBackoff, retryAux, h0, h1, h2, h3, h4]

/-- Helper: five failures surface the error of the fifth attempt after exactly
five invocations and the four doubling delays. -/
theorem retryWithBackoff_always_fail {α : Type} (fn : Nat → Except String α)
    (es : Nat → String) (hf : ∀ k, k < 5 → fn k = Except.error (es k)) :
    retryWithBackoff fn 5 2000 = (Except.error (es 4), 5, [2000, 4000, 8000, 16000]) := by
  have h0 := hf 0 (by norm_num)
  have h1 := hf 1 (by norm_num)
  have h2 := hf 2 (by norm_num)
  have h3 := hf 3 (by norm_num)
  have h4 := hf 4 (by norm_num)
  norm_num [retryWithBackoff, retryAux, h0, h1, h2, h3, h4]

/-- C6: under the 5-attempt/2000ms policy, a thunk failing on attempts 1-4 and
succeeding on attempt 5 is invoked exactly 5 times with delays
2000, 4000, 8000, 16000 ms and its success value is returned; a thunk failing on
all 5 attempts raises the error of the last attempt. -/
theorem retryWithBackoff_policy {α : Type} (fn : Nat → Except String α)
    (es : Nat → String) (v : α) :
    ((∀ k, k < 4 → fn k = Except.error (es k)) → fn 4 = Except.ok v →
      retryWithBackoff fn 5 2000 = (Except.ok v, 5, [2000, 4000, 8000, 16000]))
    ∧ ((∀ k, k < 5 → fn k = Except.error (es k)) →
      retryWithBackoff fn 5 2000 = (Except.error (es 4), 5, [2000, 4000, 8000, 16000])) :=
  ⟨fun hf h4 => retryWithBackoff_fail_four_then_ok fn es v hf h4,
    fun hf => retryWithBackoff_always_fail fn es hf⟩

/-- Concrete instance of the C6 retry-policy theorem. -/
theorem retryWithBackoff_policy_witness :
    retryWithBackoff flakyThunk 5 2000 = (Except.ok 42, 5, [2000, 4000, 8000, 16000])
    ∧ retryWithBackoff brokenThunk 5 2000 =
        (Except.error "boom", 5, [2000, 4000, 8000, 16000]) :=
  ⟨(retryWithBackoff_policy flakyThunk (fun _ => "boom") 42).1
      (fun k hk => by simp [flakyThunk, hk]) rfl,
    (retryWithBackoff_policy brokenThunk (fun _ => "boom") 42).2 (fun _ _ => rfl)⟩

/-- C4 counterexample: with the Dutch synthesizer's credentials absent, the
export audio call does NOT fail immediately — the configuration error is thrown
inside the retry wrapper, so the thunk is invoked 5 times with the full
2000, 4000, 8000, 16000 ms backoff schedule before the error surfaces. -/
theorem synth_config_error_not_immediate_counterexample :
    (generateAudioForScript noElevenLabsCfg idleNet "hallo" Lang.dutch).2.1 = 5
    ∧ (generateAudioForScript noElevenLabsCfg idleNet "hallo" Lang.dutch).2.2 =
        [2000, 4000, 8000, 16000]
    ∧ (generateAudioForScript noElevenLabsCfg idleNet "hallo" Lang.dutch).1 =
        Except.error "ElevenLabs not configured for Dutch audio" := by
  exact ⟨rfl, rfl, rfl⟩

/-- C4 amended: an absent-credentials configuration error is surfaced to the
caller, but only after being retried exactly like a transport error — 5
invocations with backoff delays 2000, 4000, 8000, 16000 ms (the retry wrapper
does not distinguish error kinds). -/
theorem synth_config_error_retried_like_transport (cfg : ApiConfig) (net : SynthNet)
    (script : String) :
    ((cfg.elevenlabsApiKey = "" ∨ cfg.elevenlabsDutchVoiceId = "") →
      generateAudioForScript cfg net script Lang.dutch =
        (Except.error "ElevenLabs not configured for Dutch audio", 5,
          [2000, 4000, 8000, 16000]))
    ∧ ((cfg.deepgramApiKey = "" ∨ cfg.deepgramApiKey = "your_deepgram_api_key_here") →
      generateAudioForScript cfg net script Lang.english =
        (Except.error "Deepgram not configured for English audio", 5,
          [2000, 4000, 8000, 16000])) := by
  constructor
  · intro h
    exact retryWithBackoff_always_fail _
      (fun _ => "ElevenLabs not configured for Dutch audio")
      (fun k _ => by simp [generateAudioAttempt, h])
  · intro h
    exact retryWithBackoff_always_fail _
      (fun _ => "Deepgram not configured for English audio")
      (fun k _ => by simp [generateAudioAttempt, h])

/-- Concrete instance of the amended C4 theorem. -/
theorem synth_config_error_retried_like_transport_witness :
    generateAudioForScript noElevenLabsCfg idleNet "hallo" Lang.dutch =
      (Except.error "ElevenLabs not configured for Dutch audio", 5,
        [2000, 4000, 8000, 16000]) :=
  (synth_config_error_retried_like_transport noElevenLabsCfg idleNet "hallo").1
    (Or.inl rfl)

/-- Helper: the slide loop is a trace of the page list, a filter-map of the
successful pages, and a filter of the failed ones. -/
theorem handleExportSlides_eq (ok : Nat → Bool) (img aud : Nat → String)
    (dur : Nat → Nat) (pages : List Nat) :
    handleExportSlides ok img aud dur pages =
      (pages, (pages.filter ok).map (fun p => (img p, aud p, dur p)),
        pages.filter (fun p => !ok p)) := by
  induction pages with
  | nil => rfl
  | cons p rest ih =>
    by_cases h : ok p = true
    · simp [handleExportSlides, ih, h, List.filter_cons]
    · have h' : ok p = false := by simpa using h
      simp [handleExportSlides, ih, h', List.filter_cons]

/-- Helper: the successful and failed pages partition the page list. -/
theorem length_filter_add_length_filter_not (p : Nat → Bool) (l : List Nat) :
    (l.filter p).length + (l.filter (fun a => !p a)).length = l.length := by
  induction l with
  | nil => rfl
  | cons a t ih =>
    by_cases h : p a = true <;> simp [List.filter_cons, h] <;> omega

/-- C7: the export loop processes slides in ascending order 1..totalPages; the
`slideData` list contains one (image, audio, duration) entry per successful
slide in index order with failed indices omitted; its length is
`totalPages - failedCount`; and whenever it is non-empty it is exactly the list
handed to the media packager. -/
theorem export_ascending_order_and_packager_list (totalPages : Nat) (ok : Nat → Bool)
    (img aud : Nat → String) (dur : Nat → Nat) :
    (handleExportLoop totalPages ok img aud dur).1 = List.range' 1 totalPages
    ∧ (handleExportLoop totalPages ok img aud dur).2.1 =
        ((List.range' 1 totalPages).filter ok).map (fun p => (img p, aud p, dur p))
    ∧ (handleExportLoop totalPages ok img aud dur).2.1.length =
        totalPages - (handleExportLoop totalPages ok img aud dur).2.2.length
    ∧ ((handleExportLoop totalPages ok img aud dur).2.1 ≠ [] →
        exportPackagerInput totalPages ok img aud dur =
          some (handleExportLoop totalPages ok img aud dur).2.1) := by
  have he := handleExportSlides_eq ok img aud dur (List.range' 1 totalPages)
  have hlen := length_filter_add_length_filter_not ok (List.range' 1 totalPages)
  have hrange : (List.range' 1 totalPages).length = totalPages := by simp
  refine ⟨?_, ?_, ?_, ?_⟩
  · rw [handleExportLoop, he]
  · rw [handleExportLoop, he]
  · rw [handleExportLoop, he]
    simp only [List.length_map]
    omega
  · intro hne
    rw [exportPackagerInput, if_neg]
    simpa [List.length_eq_zero] using hne

/-- Concrete instance of the C7 theorem: a 3-slide export where slide 2 fails
hands the packager exactly the entries for slides 1 and 3, in order. -/
theorem export_ascending_order_and_packager_list_witness :
    exportPackagerInput 3 failSlide2 constImg constAud idDur =
      some (handleExportLoop 3 failSlide2 constImg constAud idDur).2.1 :=
  (export_ascending_order_and_packager_list 3 failSlide2 constImg constAud idDur).2.2.2
    (by decide)

/-- C5: cancelling a running export does not stop the loop — with Cancel
requested before slide 3 of a 3-slide export begins, slide 3 is still processed
(`handleCancel` only clears the UI flag). The claim that no slide whose
processing had not yet started is processed fails on the code. -/
theorem export_cancel_not_observed_by_loop :
    exportProcessedPages 3 (fun p => decide (3 ≤ p)) allSlidesOk constImg constAud idDur =
      [1, 2, 3]
    ∧ (3 : Nat) ∈
        exportProcessedPages 3 (fun p => decide (3 ≤ p)) allSlidesOk constImg constAud idDur
    ∧ (handleCancel
        { isExporting := true, progress := "Slide 2/3: Generating audio...",
          currentSlide := 2 }).isExporting = false := by
  exact ⟨rfl, by decide, rfl⟩

/-- C2: the resolved language is overwritten within a single export run — with
the language unset, a cached English script for slide 2 only, and a Dutch script
generated for slide 1, `handleExport` calls `setPresentationLanguage` twice:
first with English (pre-loop majority over the cached scripts), then with Dutch
(in-loop slide-1 bootstrap, whose guard still sees the captured `null`),
overwriting the first resolution with a different value. -/
theorem export_language_resolved_twice :
    handleExportLanguage none slide2OnlyCache 3 dutchSlide1Script =
      (Lang.dutch, [Lang.english, Lang.dutch]) := by
  decide

/-- C3 counterexample: with the resolved language Dutch, the interactive
playback path still synthesizes with the Deepgram English voice, not the
synthesizer mapped to the resolved language. -/
theorem interactive_audio_ignores_language_counterexample :
    interactiveAudioSynth "Dit is een presentatie over de natuur van het land" 1 =
      Synth.deepgramEnglish
    ∧ Synth.deepgramEnglish ≠ synthFor Lang.dutch := by
  exact ⟨rfl, by decide⟩

/-- C3 amended: once the language is resolved, the prefetch audio step and the
export audio step dispatch to the synthesizer mapped to the resolved language;
interactive playback, however, always uses the Deepgram English voice regardless
of the resolved language. -/
theorem audio_dispatch_after_resolution (lang : Lang) (script : String) (page : Nat) :
    exportAudioSynth lang = synthFor lang
    ∧ prefetchAudioSynth (some lang) script = synthFor lang
    ∧ interactiveAudioSynth script page = Synth.deepgramEnglish := by
  refine ⟨?_, ?_, rfl⟩ <;> cases lang <;> rfl

/-- C1: a prefetch run started before an export (captured flag false) still
writes slide 2's script cache entry even though the export flag was flipped
while the script fetch was awaited (live flag true at the discard check): the
in-closure `isExporting` checks test the stale captured prop, so the
export-start signal observed mid-run does not discard the writes. -/
theorem prefetch_write_survives_export_flip :
    midExportEnv.exportLiveAtScriptCheck = true
    ∧ CacheWrite.script 2 "hello from slide two" ∈
        prefetchUpcomingSlides false midExportEnv fullCfg (some Lang.english)
          emptyCaches "intro script" true 1 2 (fun _ => slide2Fetches) := by
  exact ⟨rfl, by decide⟩

end PPTKaraoke
